import Mathlib

/-!
Verification development for the AI agent workflow engine
(src/agents/orchestrator.py, src/agents/preview_agent.py,
src/agents/hubspot_agent.py, src/agents/email_agent.py).

The Python code is shallowly embedded: dictionaries of extracted entities
become association lists, the LangGraph workflow becomes an explicit
composition of node functions over the `WorkflowState` record, and the
external collaborators (LLM extractor, interactive confirmation,
HubSpot executors, email notifier) become an explicit `Behavior` record
quantified over in the theorems.  Every call to an executor or to a
notifier method is recorded in a trace of `Call` values so that
invocation-counting properties can be stated.
-/

namespace Workflow

/-- Extracted entities (`entities` dict in `_parse_input`): an association
list from field name to raw string value.  `_parse_input` builds it from
`key:value` pairs, so all values are strings and keys are unique; lookup
takes the first binding. -/
def FieldMap := List (String × String)

instance : DecidableEq FieldMap := by unfold FieldMap; infer_instance

/-- `entities.get(k)`: first binding of `k`, if any. -/
def fmGet (fm : FieldMap) (k : String) : Option String :=
  ((fm : List (String × String)).find? (fun kv => kv.1 == k)).map (fun kv => kv.2)

/-- `entities.get(k, d)`: lookup with a default for a missing key. -/
def fmGetD (fm : FieldMap) (k d : String) : String :=
  (fmGet fm k).getD d

/-- Python `x or d` for `x` an optional string: the default is used when
`x` is `None` or the empty string (falsy). -/
def pyOrS (x : Option String) (d : String) : String :=
  match x with
  | some s => if s = "" then d else s
  | none => d

/-- Python `x or y` where both sides are optional strings
(`entities.get("deal_name") or entities.get("name")`). -/
def pyOrOpt (x y : Option String) : Option String :=
  match x with
  | some s => if s = "" then y else some s
  | none => y

/-- Python truthiness of an optional string (`if final_state.get("error"):`):
true iff present and non-empty. -/
def pyTruthyOpt : Option String → Bool
  | some s => !(s == "")
  | none => false

/-- How an f-string renders an optional value: `None` for a missing one. -/
def pyStr : Option String → String
  | some s => s
  | none => "None"

/-- Python `str.strip()`: drop whitespace from both ends. -/
def pyStrip (s : String) : String :=
  String.mk (((s.data.dropWhile Char.isWhitespace).reverse.dropWhile Char.isWhitespace).reverse)

/-- `s.replace("$", "").replace(",", "")`: remove every dollar sign and comma. -/
def stripCurrency (s : String) : String :=
  String.mk (s.data.filter (fun c => !(c == '$' || c == ',')))

/-- Numeric value of a digit string. -/
def charsVal (cs : List Char) : Nat :=
  cs.foldl (fun a c => 10 * a + (c.toNat - 48)) 0

/-- Exponent suffix of a float literal (`e`/`E`, optional sign, digits),
applied to an already-parsed mantissa. -/
def pyFloatExp (cs : List Char) (mant : Rat) : Option Rat :=
  match cs with
  | [] => some mant
  | c :: rest =>
      if c = 'e' ∨ c = 'E' then
        let sg : Int := match rest with
          | '+' :: _ => 1
          | '-' :: _ => -1
          | _ => 1
        let ds : List Char := match rest with
          | '+' :: r => r
          | '-' :: r => r
          | r => r
        if ds ≠ [] ∧ ds.all Char.isDigit then
          if 0 ≤ sg then some (mant * (10 : Rat) ^ charsVal ds)
          else some (mant / (10 : Rat) ^ charsVal ds)
        else none
      else none

/-- Body of a float literal after the optional sign. -/
def pyFloatCore (cs : List Char) : Option Rat :=
  let ip := cs.takeWhile Char.isDigit
  let r1 := cs.dropWhile Char.isDigit
  match r1 with
  | '.' :: r2 =>
      let fp := r2.takeWhile Char.isDigit
      let r3 := r2.dropWhile Char.isDigit
      if ip = [] ∧ fp = [] then none
      else pyFloatExp r3 ((charsVal ip : Rat) + (charsVal fp : Rat) / (10 : Rat) ^ fp.length)
  | _ => if ip = [] then none else pyFloatExp r1 (charsVal ip)

/-- Python `float(s)` on decimal literals: surrounding whitespace, optional
sign, digits with optional fraction and exponent; `none` models the
`ValueError` raised otherwise.  (`inf`/`nan` and digit-group underscores,
which no run of this engine produces, are not modelled.)  Exact rational
values stand in for IEEE doubles; no claim depends on rounding. -/
def pyFloat (s : String) : Option Rat :=
  match (pyStrip s).data with
  | '+' :: rest => pyFloatCore rest
  | '-' :: rest => (pyFloatCore rest).map (fun q => -q)
  | rest => pyFloatCore rest

/-! ## Preview data model (src/agents/preview_agent.py) -/

/-- The `data` dict of a contact `PreviewItem` as built by
`create_contact_preview`: the five recognized string fields plus the value
carried under the literal key `"properties"` (`none` models the `{}`
default used when the key is absent). -/
structure ContactData where
  email : String
  first_name : String
  last_name : String
  phone : String
  company : String
  properties : Option String
deriving DecidableEq

/-- The `data` dict of a deal `PreviewItem` as built by
`create_deal_preview`.  An `amount` entity that is the empty string stays
unparsed in Python (falsy, treated identically to `None` by every later
read); it is modelled as `none`. -/
structure DealData where
  deal_name : String
  amount : Option Rat
  stage : String
  close_date : String
  contact_email : String
  contact_name : String
  company : String
  properties : Option String
deriving DecidableEq

/-- The `type`/`data` split of `PreviewItem` (`"contact"` or `"deal"`). -/
inductive PreviewData
  | contact (c : ContactData)
  | deal (d : DealData)
deriving DecidableEq

/-- `PreviewItem` dataclass: typed staging data plus the original
instruction text. -/
structure PreviewItem where
  data : PreviewData
  original_input : String
deriving DecidableEq

/-- The `type` field of a `PreviewItem` (`"contact"` or `"deal"`). -/
def PreviewItem.kind : PreviewItem → String
  | { data := PreviewData.contact _, .. } => "contact"
  | { data := PreviewData.deal _, .. } => "deal"

/-- Contact fields of a preview, when it is a contact preview. -/
def PreviewItem.contactData : PreviewItem → Option ContactData
  | { data := PreviewData.contact c, .. } => some c
  | _ => none

/-- Deal fields of a preview, when it is a deal preview. -/
def PreviewItem.dealData : PreviewItem → Option DealData
  | { data := PreviewData.deal d, .. } => some d
  | _ => none

/-- `PreviewAgent.create_contact_preview`. -/
def create_contact_preview (entities : FieldMap) (original_input : String) : PreviewItem :=
  { data := PreviewData.contact
      { email := fmGetD entities "email" ""
        first_name := fmGetD entities "first_name" ""
        last_name := fmGetD entities "last_name" ""
        phone := fmGetD entities "phone" ""
        company := fmGetD entities "company" ""
        properties := fmGet entities "properties" }
    original_input }

/-- `PreviewAgent.create_deal_preview`. -/
def create_deal_preview (entities : FieldMap) (original_input : String) : PreviewItem :=
  let amount : Option Rat :=
    match fmGet entities "amount" with
    | some a => if a = "" then none else pyFloat a
    | none => none
  let fn := fmGetD entities "first_name" ""
  let ln := fmGetD entities "last_name" ""
  let co := fmGetD entities "company" ""
  { data := PreviewData.deal
      { deal_name := pyOrS (fmGet entities "deal_name")
          (pyOrS (fmGet entities "name")
            (pyStrip ("Deal with " ++ fn ++ " " ++ ln ++ " from " ++ co)))
        amount
        stage := fmGetD entities "stage" "appointmentscheduled"
        close_date := fmGetD entities "close_date" ""
        contact_email := pyOrS (fmGet entities "contact_email") (fmGetD entities "email" "")
        contact_name := pyOrS (fmGet entities "contact_name") (pyStrip (fn ++ " " ++ ln))
        company := co
        properties := fmGet entities "properties" }
    original_input }

/-- The raw strings a user enters at the five prompts of one contact edit
round (`_edit_contact_data`). -/
structure ContactEdits where
  email : String
  first_name : String
  last_name : String
  phone : String
  company : String
deriving DecidableEq

/-- One conditional assignment `if new: data[k] = new` of the edit loops,
for an already-stripped prompt answer `new`: replace only when the
stripped answer is non-empty. -/
def updStr (old new : String) : String :=
  if pyStrip new = "" then old else pyStrip new

/-- The amount assignment of `_edit_deal_data`: a non-empty answer has
`$`/`,` removed and is parsed with `float`; the prior amount is kept on a
parse failure. -/
def updAmount (old : Option Rat) (new : String) : Option Rat :=
  if pyStrip new = "" then old
  else
    match pyFloat (pyStrip (stripCurrency (pyStrip new))) with
    | some q => some q
    | none => old

/-- `PreviewAgent._edit_contact_data`: each prompt answer is stripped and,
when non-empty, replaces the field, in prompt order. -/
def applyContactEdits (d : ContactData) (e : ContactEdits) : ContactData :=
  let d1 := { d with email := updStr d.email e.email }
  let d2 := { d1 with first_name := updStr d1.first_name e.first_name }
  let d3 := { d2 with last_name := updStr d2.last_name e.last_name }
  let d4 := { d3 with phone := updStr d3.phone e.phone }
  { d4 with company := updStr d4.company e.company }

/-- The raw strings a user enters at the seven prompts of one deal edit
round (`_edit_deal_data`). -/
structure DealEdits where
  deal_name : String
  amount : String
  stage : String
  close_date : String
  contact_name : String
  contact_email : String
  company : String
deriving DecidableEq

/-- `PreviewAgent._edit_deal_data`: stripped non-empty answers replace the
fields; the amount answer additionally has `$`/`,` removed and is parsed
with `float`, the prior amount being kept on a parse failure. -/
def applyDealEdits (d : DealData) (e : DealEdits) : DealData :=
  let d1 := { d with deal_name := updStr d.deal_name e.deal_name }
  let d2 := { d1 with amount := updAmount d1.amount e.amount }
  let d3 := { d2 with stage := updStr d2.stage e.stage }
  let d4 := { d3 with close_date := updStr d3.close_date e.close_date }
  let d5 := { d4 with contact_name := updStr d4.contact_name e.contact_name }
  let d6 := { d5 with contact_email := updStr d5.contact_email e.contact_email }
  { d6 with company := updStr d6.company e.company }

/-- One round of the edit loop.  `edit_preview` dispatches on the preview's
type, and the prompts shown (hence the strings entered) are determined by
that type, so a round is tagged with the type it answers. -/
inductive EditRound
  | forContact (e : ContactEdits)
  | forDeal (e : DealEdits)
deriving DecidableEq

/-- `PreviewAgent.edit_preview`: rebuild the `PreviewItem` with the edited
data and the same `original_input`.  A round of the wrong tag cannot arise
(the prompts are chosen from the preview's own type) and is modelled as a
no-op. -/
def editPreview (p : PreviewItem) (r : EditRound) : PreviewItem :=
  match p.data, r with
  | PreviewData.contact c, EditRound.forContact e =>
      { p with data := PreviewData.contact (applyContactEdits c e) }
  | PreviewData.deal d, EditRound.forDeal e =>
      { p with data := PreviewData.deal (applyDealEdits d e) }
  | _, _ => p

/-- The edit rounds of one confirmation loop, applied in order. -/
def applyEdits (p : PreviewItem) (es : List EditRound) : PreviewItem :=
  es.foldl editPreview p

/-! ## Executor argument objects (src/agents/hubspot_agent.py dataclasses) -/

/-- The `Contact` dataclass passed to `HubSpotAgent.create_contact`. -/
structure Contact where
  email : String
  first_name : Option String
  last_name : Option String
  phone : Option String
  company : Option String
  properties : Option String
deriving DecidableEq

/-- The `Deal` dataclass passed to `HubSpotAgent.create_deal`. -/
structure Deal where
  deal_name : String
  amount : Option Rat
  stage : Option String
  close_date : Option String
  contact_email : Option String
  properties : Option String
deriving DecidableEq

/-- `PreviewAgent.create_contact_from_preview`.  On deal-shaped data the
mandatory `data["email"]` access raises `KeyError`, modelled as `none`. -/
def create_contact_from_preview (p : PreviewItem) : Option Contact :=
  match p.data with
  | PreviewData.contact c =>
      some { email := c.email, first_name := some c.first_name,
             last_name := some c.last_name, phone := some c.phone,
             company := some c.company, properties := c.properties }
  | PreviewData.deal _ => none

/-- `PreviewAgent.create_deal_from_preview`.  On contact-shaped data the
mandatory `data["deal_name"]` access raises `KeyError`, modelled as
`none`. -/
def create_deal_from_preview (p : PreviewItem) : Option Deal :=
  match p.data with
  | PreviewData.deal d =>
      some { deal_name := d.deal_name, amount := d.amount,
             stage := some d.stage, close_date := some d.close_date,
             contact_email := some d.contact_email, properties := d.properties }
  | PreviewData.contact _ => none

/-! ## Workflow state and collaborator behaviors (src/agents/orchestrator.py) -/

/-- The `WorkflowState` TypedDict.  Executor result payloads are opaque
mappings carried through untouched; they are modelled as opaque strings. -/
structure WorkflowState where
  user_input : String
  intent : Option String
  entities : FieldMap
  preview_item : Option PreviewItem
  user_confirmed : Option Bool
  contact_data : Option String
  deal_data : Option String
  hubspot_result : Option String
  email_result : Option Bool
  error : Option String
  workflow_completed : Bool
deriving DecidableEq

/-- How one run of `_show_preview`'s confirmation loop ends: approval,
rejection, or an exception escaping the `try` block (from `display_preview`,
`input()`, or `edit_preview`). -/
inductive ConfirmOutcome
  | approve
  | reject
  | fail (msg : String)
deriving DecidableEq

/-- The interactive behavior of one confirmation loop: the edit rounds the
user completes, then the terminal outcome.  (An exception in the middle of
an edit round leaves some prompts of that round unapplied; such a run is
represented by the behavior whose `edits` are the completed rounds, which
reaches the same terminal path.) -/
structure ConfirmBehavior where
  edits : List EditRound
  outcome : ConfirmOutcome

/-- One run's behavior of every external collaborator.  `extract` is the
outcome of `_parse_input`'s entire `try` block (the Gemini call plus the
`INTENT:`/`ENTITIES:` parse, which cannot itself raise and defaults the
intent to `"unknown"`): either the resulting `(intent, entities)` pair or
the message of the exception raised.  Executors and notifiers may depend
on their arguments and may raise (`Except.error`).  The result of
`send_error_notification` is ignored by `_handle_error` (its exceptions
are swallowed), so no field is needed for it beyond the call itself being
traced. -/
structure Behavior where
  extract : Except String (String × FieldMap)
  confirm : ConfirmBehavior
  contactExec : Contact → Except String String
  dealExec : Deal → Except String String
  notifyContact : Option String → String → Except String Bool
  notifyDeal : Option String → Option Rat → Option String → Except String Bool

/-- One call across an external boundary, recorded in the run trace. -/
inductive Call
  | execContact (c : Contact)
  | execDeal (d : Deal)
  | notifyContact (email : Option String) (name : String)
  | notifyDeal (deal_name : Option String) (amount : Option Rat) (contact_email : Option String)
  | notifyError (msg : Option String) (context : String)
deriving DecidableEq

/-- Whether a boundary call is a notification (email-agent `send_*`) call. -/
def Call.isNotify : Call → Bool
  | Call.notifyContact _ _ => true
  | Call.notifyDeal _ _ _ => true
  | Call.notifyError _ _ => true
  | _ => false

/-- Whether a boundary call is an error notification. -/
def Call.isErrorNotify : Call → Bool
  | Call.notifyError _ _ => true
  | _ => false

/-- Whether a boundary call is an executor invocation. -/
def Call.isExec : Call → Bool
  | Call.execContact _ => true
  | Call.execDeal _ => true
  | _ => false

/-! ## Workflow nodes -/

/-- `_parse_input`: on success the intent and entities are stored; on an
exception the error is recorded and the state is otherwise unchanged. -/
def parseInputNode (b : Behavior) (st : WorkflowState) : WorkflowState :=
  match b.extract with
  | Except.ok x => { st with intent := some x.1, entities := x.2 }
  | Except.error m => { st with error := some ("Error parsing input: " ++ m) }

/-- `_route_workflow`: conditional edge after `parse_input`. -/
def routeWorkflow (st : WorkflowState) : String :=
  if st.intent = some "create_contact" ∨ st.intent = some "create_deal" then
    "create_preview"
  else
    "error"

/-- `_create_preview`: builds the intent's preview; the builders are total,
so the node's `except` branch is dead and only the explicit unknown-intent
branch can record an error.  (`state.get("intent", "unknown")` renders a
`None` intent via the f-string as `"None"`.) -/
def createPreviewNode (st : WorkflowState) : WorkflowState :=
  if st.intent = some "create_contact" then
    { st with preview_item := some (create_contact_preview st.entities st.user_input) }
  else if st.intent = some "create_deal" then
    { st with preview_item := some (create_deal_preview st.entities st.user_input) }
  else
    { st with error := some ("Unknown intent: " ++ pyStr st.intent) }

/-- `_show_preview`: display the preview, loop on edits, and record the
confirmation decision.  Each completed edit round is stored back into the
state; exiting through an exception records the error and leaves
`user_confirmed` unset. -/
def showPreviewNode (b : Behavior) (st : WorkflowState) : WorkflowState :=
  match st.preview_item with
  | none => { st with error := some "No preview item found" }
  | some p =>
      let pf := applyEdits p b.confirm.edits
      match b.confirm.outcome with
      | ConfirmOutcome.approve =>
          { st with preview_item := some pf, user_confirmed := some true }
      | ConfirmOutcome.reject =>
          { st with preview_item := some pf, user_confirmed := some false,
                    error := some "User cancelled the operation" }
      | ConfirmOutcome.fail m =>
          { st with preview_item := some pf,
                    error := some ("Error showing preview: " ++ m) }

/-- `_route_after_preview`: conditional edge after `show_preview`; an unset
or false confirmation is falsy. -/
def routeAfterPreview (st : WorkflowState) : String :=
  if st.user_confirmed = some true then
    if st.intent = some "create_contact" then "create_contact"
    else if st.intent = some "create_deal" then "create_deal"
    else "handle_error"
  else "handle_error"

/-- `_create_contact`: build the `Contact` from the preview and invoke the
HubSpot executor; a raised exception is caught and recorded.  The executor
call, when reached, is traced. -/
def createContactNode (b : Behavior) (st : WorkflowState) : WorkflowState × List Call :=
  match st.preview_item with
  | none => ({ st with error := some "No preview item found for contact creation" }, [])
  | some p =>
      match create_contact_from_preview p with
      | none => ({ st with error := some "Error creating contact: \x27email\x27" }, [])
      | some contact =>
          match b.contactExec contact with
          | Except.ok r =>
              ({ st with contact_data := some r, hubspot_result := some r },
               [Call.execContact contact])
          | Except.error m =>
              ({ st with error := some ("Error creating contact: " ++ m) },
               [Call.execContact contact])

/-- `_create_deal`: deal analogue of `createContactNode`. -/
def createDealNode (b : Behavior) (st : WorkflowState) : WorkflowState × List Call :=
  match st.preview_item with
  | none => ({ st with error := some "No preview item found for deal creation" }, [])
  | some p =>
      match create_deal_from_preview p with
      | none => ({ st with error := some "Error creating deal: \x27deal_name\x27" }, [])
      | some deal =>
          match b.dealExec deal with
          | Except.ok r =>
              ({ st with deal_data := some r, hubspot_result := some r },
               [Call.execDeal deal])
          | Except.error m =>
              ({ st with error := some ("Error creating deal: " ++ m) },
               [Call.execDeal deal])

/-- Name passed to `send_contact_created_notification`:
the stripped `f"{first_name} {last_name}"` built from the entities. -/
def contactNotifyName (fm : FieldMap) : String :=
  pyStrip (fmGetD fm "first_name" "" ++ " " ++ fmGetD fm "last_name" "")

/-- Deal name passed to `send_deal_created_notification`:
`entities.get("deal_name") or entities.get("name")`. -/
def dealNotifyName (fm : FieldMap) : Option String :=
  pyOrOpt (fmGet fm "deal_name") (fmGet fm "name")

/-- Amount passed to `send_deal_created_notification`: parsed from the
`amount` entity when the key is present, `$`/`,` removed; a parse failure
is swallowed and leaves it `None`. -/
def dealNotifyAmount (fm : FieldMap) : Option Rat :=
  match fmGet fm "amount" with
  | some a => pyFloat (stripCurrency a)
  | none => none

/-- `_send_notification`: one success-kind notification chosen by intent;
an exception from the email agent is caught and recorded as a failed
delivery; the workflow is then marked completed in every case.  The `else`
branch makes no notifier call. -/
def sendNotificationNode (b : Behavior) (st : WorkflowState) : WorkflowState × List Call :=
  if st.intent = some "create_contact" then
    let email := fmGet st.entities "email"
    let nm := contactNotifyName st.entities
    let res := match b.notifyContact email nm with
      | Except.ok v => v
      | Except.error _ => false
    ({ st with email_result := some res, workflow_completed := true },
     [Call.notifyContact email nm])
  else if st.intent = some "create_deal" then
    let dn := dealNotifyName st.entities
    let am := dealNotifyAmount st.entities
    let ce := fmGet st.entities "contact_email"
    let res := match b.notifyDeal dn am ce with
      | Except.ok v => v
      | Except.error _ => false
    ({ st with email_result := some res, workflow_completed := true },
     [Call.notifyDeal dn am ce])
  else
    ({ st with email_result := some false, workflow_completed := true }, [])

/-- `_handle_error`: send exactly one error notification built from the
recorded error (possibly `None`) and the original input, swallowing any
exception or failed delivery from the notifier, then mark the workflow
completed. -/
def handleErrorNode (st : WorkflowState) : WorkflowState × List Call :=
  ({ st with workflow_completed := true },
   [Call.notifyError st.error ("User input: " ++ st.user_input)])

/-- The compiled LangGraph of `_build_workflow_graph`: entry at
`parse_input`, the two conditional-edge maps, the unconditional edges
`create_preview → show_preview`, `create_contact → send_notification`,
`create_deal → send_notification`, and both `send_notification` and
`handle_error` flowing to `END`. -/
def runWorkflow (b : Behavior) (st0 : WorkflowState) : WorkflowState × List Call :=
  let st1 := parseInputNode b st0
  if routeWorkflow st1 = "create_preview" then
    let st3 := showPreviewNode b (createPreviewNode st1)
    if routeAfterPreview st3 = "create_contact" then
      let r4 := createContactNode b st3
      let r5 := sendNotificationNode b r4.1
      (r5.1, r4.2 ++ r5.2)
    else if routeAfterPreview st3 = "create_deal" then
      let r4 := createDealNode b st3
      let r5 := sendNotificationNode b r4.1
      (r5.1, r4.2 ++ r5.2)
    else
      handleErrorNode st3
  else
    handleErrorNode st1

/-- The `data` mapping of a successful `WorkflowResult`
(`final_state.get("email_result", False)` reads the stored value, which is
still `None` when `send_notification` never ran). -/
structure ResultData where
  hubspot_result : Option String
  email_sent : Option Bool
  entities : FieldMap
deriving DecidableEq

/-- The `WorkflowResult` dataclass. -/
structure WorkflowResult where
  success : Bool
  message : String
  data : Option ResultData
  error : Option String
deriving DecidableEq

/-- The fresh `WorkflowState` built at the top of `process_request`. -/
def initState (user_input : String) : WorkflowState :=
  { user_input
    intent := none
    entities := ([] : List (String × String))
    preview_item := none
    user_confirmed := none
    contact_data := none
    deal_data := none
    hubspot_result := none
    email_result := none
    error := none
    workflow_completed := false }

/-- The result construction at the bottom of `process_request`: a truthy
error string yields a failure result; otherwise a success result whose
message depends on the intent. -/
def mkResult (fs : WorkflowState) : WorkflowResult :=
  if pyTruthyOpt fs.error then
    { success := false
      message := "Workflow failed: " ++ pyStr fs.error
      data := none
      error := fs.error }
  else
    { success := true
      message :=
        if fs.intent = some "create_contact" then
          "Contact created successfully for " ++ pyStr (fmGet fs.entities "email")
        else if fs.intent = some "create_deal" then
          "Deal created successfully: " ++ fmGetD fs.entities "deal_name" "Unknown"
        else
          "Workflow completed successfully"
      data := some { hubspot_result := fs.hubspot_result
                     email_sent := fs.email_result
                     entities := fs.entities }
      error := none }

/-- `process_request`: run the graph on a fresh state and package the
outcome.  Every node catches its own exceptions, so the surrounding
`try`/`except` of `process_request` has nothing left to catch and the
function is total. -/
def process_request (b : Behavior) (user_input : String) : WorkflowResult × List Call :=
  let r := runWorkflow b (initState user_input)
  (mkResult r.1, r.2)

/-! ## Helper lemmas -/

theorem str_append_ne_empty (a b : String) (h : a.data ≠ []) : a ++ b ≠ "" := by
  intro hc
  apply h
  have hd : (a ++ b).data = [] := by rw [hc]
  rw [String.data_append] at hd
  exact (List.append_eq_nil.mp hd).1

theorem pyTruthyOpt_append (a b : String) (h : a.data ≠ []) :
    pyTruthyOpt (some (a ++ b)) = true := by
  have hne : a ++ b ≠ "" := str_append_ne_empty a b h
  simp [pyTruthyOpt, hne]

/-- `mkResult` on a state with a non-empty recorded error. -/
theorem mkResult_error (fs : WorkflowState) (s : String)
    (h : fs.error = some s) (hs : s ≠ "") :
    mkResult fs =
      { success := false, message := "Workflow failed: " ++ s,
        data := none, error := some s } := by
  unfold mkResult
  rw [h]
  simp [pyTruthyOpt, pyStr, hs]

/-- `mkResult` on a state with no recorded error. -/
theorem mkResult_noError (fs : WorkflowState) (h : fs.error = none) :
    mkResult fs =
      { success := true
        message :=
          if fs.intent = some "create_contact" then
            "Contact created successfully for " ++ pyStr (fmGet fs.entities "email")
          else if fs.intent = some "create_deal" then
            "Deal created successfully: " ++ fmGetD fs.entities "deal_name" "Unknown"
          else "Workflow completed successfully"
        data := some { hubspot_result := fs.hubspot_result
                       email_sent := fs.email_result
                       entities := fs.entities }
        error := none } := by
  unfold mkResult
  rw [h]
  simp [pyTruthyOpt]

theorem handleError_trace (st : WorkflowState) :
    (handleErrorNode st).2 = [Call.notifyError st.error ("User input: " ++ st.user_input)] :=
  rfl

theorem createContact_trace_no_notify (b : Behavior) (st : WorkflowState) :
    ((createContactNode b st).2).filter Call.isNotify = [] := by
  unfold createContactNode
  rcases hp : st.preview_item with _ | p
  · rfl
  · rcases hc : create_contact_from_preview p with _ | c
    · simp [hc]
    · rcases he : b.contactExec c with m | r <;> simp [hc, he, Call.isNotify]

theorem createDeal_trace_no_notify (b : Behavior) (st : WorkflowState) :
    ((createDealNode b st).2).filter Call.isNotify = [] := by
  unfold createDealNode
  rcases hp : st.preview_item with _ | p
  · rfl
  · rcases hc : create_deal_from_preview p with _ | d
    · simp [hc]
    · rcases he : b.dealExec d with m | r <;> simp [hc, he, Call.isNotify]

theorem createContact_keeps (b : Behavior) (st : WorkflowState) :
    (createContactNode b st).1.intent = st.intent ∧
    (createContactNode b st).1.entities = st.entities := by
  unfold createContactNode
  rcases hp : st.preview_item with _ | p
  · exact ⟨rfl, rfl⟩
  · rcases hc : create_contact_from_preview p with _ | c
    · simp [hc]
    · rcases he : b.contactExec c with m | r <;> simp [hc, he]

theorem createDeal_keeps (b : Behavior) (st : WorkflowState) :
    (createDealNode b st).1.intent = st.intent ∧
    (createDealNode b st).1.entities = st.entities := by
  unfold createDealNode
  rcases hp : st.preview_item with _ | p
  · exact ⟨rfl, rfl⟩
  · rcases hc : create_deal_from_preview p with _ | d
    · simp [hc]
    · rcases he : b.dealExec d with m | r <;> simp [hc, he]

theorem sendNotification_trace_cc (b : Behavior) (st : WorkflowState)
    (h : st.intent = some "create_contact") :
    (sendNotificationNode b st).2 =
      [Call.notifyContact (fmGet st.entities "email") (contactNotifyName st.entities)] := by
  unfold sendNotificationNode
  rw [if_pos h]

theorem sendNotification_trace_cd (b : Behavior) (st : WorkflowState)
    (h : st.intent = some "create_deal") :
    (sendNotificationNode b st).2 =
      [Call.notifyDeal (dealNotifyName st.entities) (dealNotifyAmount st.entities)
         (fmGet st.entities "contact_email")] := by
  unfold sendNotificationNode
  rw [if_neg (by rw [h]; decide), if_pos h]

theorem routeAfter_cc (st : WorkflowState) (h : routeAfterPreview st = "create_contact") :
    st.user_confirmed = some true ∧ st.intent = some "create_contact" := by
  unfold routeAfterPreview at h
  by_cases h1 : st.user_confirmed = some true
  · rw [if_pos h1] at h
    by_cases h2 : st.intent = some "create_contact"
    · exact ⟨h1, h2⟩
    · rw [if_neg h2] at h
      by_cases h3 : st.intent = some "create_deal"
      · rw [if_pos h3] at h; exact absurd h (by decide)
      · rw [if_neg h3] at h; exact absurd h (by decide)
  · rw [if_neg h1] at h; exact absurd h (by decide)

theorem routeAfter_cd (st : WorkflowState) (h : routeAfterPreview st = "create_deal") :
    st.user_confirmed = some true ∧ st.intent = some "create_deal" := by
  unfold routeAfterPreview at h
  by_cases h1 : st.user_confirmed = some true
  · rw [if_pos h1] at h
    by_cases h2 : st.intent = some "create_contact"
    · rw [if_pos h2] at h; exact absurd h (by decide)
    · rw [if_neg h2] at h
      by_cases h3 : st.intent = some "create_deal"
      · exact ⟨h1, h3⟩
      · rw [if_neg h3] at h; exact absurd h (by decide)
  · rw [if_neg h1] at h; exact absurd h (by decide)

/-! ## Claims about the Preview Builder and the edit operation -/

/-- The dispatch of `_create_preview` viewed as the engine's
`build(intent, fields, origin) -> Preview` operation; `none` for an intent
with no builder. -/
def buildFor (intent : String) (fm : FieldMap) (orig : String) : Option PreviewItem :=
  if intent = "create_contact" then some (create_contact_preview fm orig)
  else if intent = "create_deal" then some (create_deal_preview fm orig)
  else none

/-- The preview `type` corresponding to an intent tag. -/
def intentKind (intent : String) : String :=
  if intent = "create_contact" then "contact" else "deal"

/-- C6: for every intent in {create_contact, create_deal}, every field map
and every origin text, the preview builder is total (missing or malformed
fields become blank or absent, never a failure) and the built preview's
kind matches the intent. -/
theorem claim6_build_total_and_kind (i : String) (fm : FieldMap) (orig : String)
    (h : i = "create_contact" ∨ i = "create_deal") :
    ∃ p, buildFor i fm orig = some p ∧ p.kind = intentKind i := by
  rcases h with h | h <;> subst h
  · exact ⟨_, rfl, rfl⟩
  · refine ⟨create_deal_preview fm orig, ?_, ?_⟩
    · simp [buildFor]
    · rfl

/-- C6 witness: the builder at a concrete intent and field map. -/
theorem claim6_witness :
    ("create_deal" = "create_contact" ∨ "create_deal" = "create_deal") ∧
    ∃ p, buildFor "create_deal" [("amount", "5000")] "t" = some p ∧
      p.kind = intentKind "create_deal" :=
  ⟨Or.inr rfl, claim6_build_total_and_kind "create_deal" [("amount", "5000")] "t" (Or.inr rfl)⟩

/-- A concrete deal preview (deal name `"Acme Deal"`, amount 100). -/
def c7Preview : PreviewItem :=
  create_deal_preview [("deal_name", "Acme Deal"), ("amount", "100")] "t"

/-- A deal edit round whose only non-empty answer is an unparseable amount. -/
def c7Edit : DealEdits :=
  { deal_name := "", amount := "abc", stage := "", close_date := ""
    contact_name := "", contact_email := "", company := "" }

/-- C7 counterexample: editing the deal amount field with the non-empty
value `"abc"` does not replace the field with the supplied value — the
parse fails and the prior amount 100 is kept (the whole preview is
unchanged), refuting that every non-empty edit replaces the field
exactly. -/
theorem claim7_counterexample :
    c7Edit.amount ≠ "" ∧
    editPreview c7Preview (EditRound.forDeal c7Edit) = c7Preview ∧
    (c7Preview.dealData).map DealData.amount = some (some 100) := by
  refine ⟨by decide, by decide, by decide⟩

/-- C7 (amended): an edit whose answer is empty after stripping whitespace
leaves the field's prior value; a non-empty answer replaces a string field
with exactly the stripped answer; the deal amount answer is instead parsed
(`$`/`,` removed) and replaces the amount only when the parse succeeds;
the properties bag is not editable and is unchanged. -/
theorem claim7_amended (c : ContactData) (e : ContactEdits)
    (d : DealData) (f : DealEdits) :
    applyContactEdits c e =
      { email := if pyStrip e.email = "" then c.email else pyStrip e.email
        first_name := if pyStrip e.first_name = "" then c.first_name else pyStrip e.first_name
        last_name := if pyStrip e.last_name = "" then c.last_name else pyStrip e.last_name
        phone := if pyStrip e.phone = "" then c.phone else pyStrip e.phone
        company := if pyStrip e.company = "" then c.company else pyStrip e.company
        properties := c.properties } ∧
    applyDealEdits d f =
      { deal_name := if pyStrip f.deal_name = "" then d.deal_name else pyStrip f.deal_name
        amount :=
          if pyStrip f.amount = "" then d.amount
          else
            match pyFloat (pyStrip (stripCurrency (pyStrip f.amount))) with
            | some q => some q
            | none => d.amount
        stage := if pyStrip f.stage = "" then d.stage else pyStrip f.stage
        close_date := if pyStrip f.close_date = "" then d.close_date else pyStrip f.close_date
        contact_name := if pyStrip f.contact_name = "" then d.contact_name else pyStrip f.contact_name
        contact_email := if pyStrip f.contact_email = "" then d.contact_email else pyStrip f.contact_email
        company := if pyStrip f.company = "" then d.company else pyStrip f.company
        properties := d.properties } := by
  exact ⟨rfl, rfl⟩

/-- C8 counterexample: building a contact preview from a field map with the
unknown extra key `nickname` yields exactly the preview built without it —
the extra field is dropped, not preserved — and the preview's properties
bag holds only the (absent) value of the literal key `properties`. -/
theorem claim8_counterexample :
    create_contact_preview [("email", "a@x.com"), ("nickname", "Bob")] "t"
      = create_contact_preview [("email", "a@x.com")] "t" ∧
    (create_contact_preview [("email", "a@x.com"), ("nickname", "Bob")] "t").contactData.map
        ContactData.properties = some none := by
  refine ⟨by decide, by decide⟩

/-- The keys `create_contact_preview` reads. -/
def contactRecognizedKeys : List String :=
  ["email", "first_name", "last_name", "phone", "company", "properties"]

/-- The keys `create_deal_preview` reads. -/
def dealRecognizedKeys : List String :=
  ["deal_name", "name", "amount", "stage", "close_date", "contact_email",
   "contact_name", "email", "first_name", "last_name", "company", "properties"]

/-- C8 (amended): the builders drop unrecognized extra fields — a built
preview depends only on the intent's recognized keys (the side properties
bag carries only the value of the literal key `properties`), so two field
maps agreeing on the recognized keys yield identical previews. -/
theorem claim8_amended (fm fm2 : FieldMap) (orig : String)
    (hc : ∀ k ∈ contactRecognizedKeys, fmGet fm k = fmGet fm2 k)
    (hd : ∀ k ∈ dealRecognizedKeys, fmGet fm k = fmGet fm2 k) :
    create_contact_preview fm orig = create_contact_preview fm2 orig ∧
    create_deal_preview fm orig = create_deal_preview fm2 orig := by
  constructor
  · have h1 := hc "email" (by decide)
    have h2 := hc "first_name" (by decide)
    have h3 := hc "last_name" (by decide)
    have h4 := hc "phone" (by decide)
    have h5 := hc "company" (by decide)
    have h6 := hc "properties" (by decide)
    simp [create_contact_preview, fmGetD, h1, h2, h3, h4, h5, h6]
  · have h1 := hd "deal_name" (by decide)
    have h2 := hd "name" (by decide)
    have h3 := hd "amount" (by decide)
    have h4 := hd "stage" (by decide)
    have h5 := hd "close_date" (by decide)
    have h6 := hd "contact_email" (by decide)
    have h7 := hd "contact_name" (by decide)
    have h8 := hd "email" (by decide)
    have h9 := hd "first_name" (by decide)
    have h10 := hd "last_name" (by decide)
    have h11 := hd "company" (by decide)
    have h12 := hd "properties" (by decide)
    simp [create_deal_preview, fmGetD, h1, h2, h3, h4, h5, h6, h7, h8, h9, h10, h11, h12]

/-- C8 witness: two concrete field maps that differ only in unrecognized
extra keys build identical previews. -/
theorem claim8_witness :
    create_contact_preview [("email", "a@x.com"), ("junk", "1")] "t"
      = create_contact_preview [("email", "a@x.com"), ("other", "2")] "t" ∧
    create_deal_preview [("email", "a@x.com"), ("junk", "1")] "t"
      = create_deal_preview [("email", "a@x.com"), ("other", "2")] "t" :=
  claim8_amended [("email", "a@x.com"), ("junk", "1")]
    [("email", "a@x.com"), ("other", "2")] "t" (by decide) (by decide)

/-- C9 counterexample: a deal field map with no `deal_name` whose
contact-name value is `"Alice Smith"` (and no first/last name entities):
the synthesized deal name ignores the run's contact-name value and is
built from the blank `first_name`/`last_name` entities instead. -/
theorem claim9_counterexample :
    ((create_deal_preview [("contact_name", "Alice Smith"), ("company", "Acme")] "t").dealData).map
        DealData.deal_name = some "Deal with   from Acme" ∧
    ((create_deal_preview [("contact_name", "Alice Smith"), ("company", "Acme")] "t").dealData).map
        DealData.contact_name = some "Alice Smith" ∧
    ("Deal with   from Acme" : String) ≠ "Deal with Alice Smith from Acme" := by
  refine ⟨by decide, by decide, by decide⟩

/-- C9 (amended): when both the `deal_name` and the fallback `name` entity
are absent or blank, the deal name is synthesized as the whitespace-stripped
`"Deal with {first_name} {last_name} from {company}"` built from the raw
`first_name`/`last_name`/`company` entities (blank when absent), not from
the preview's contact-name value. -/
theorem claim9_amended (fm : FieldMap) (orig : String)
    (h1 : fmGet fm "deal_name" = none ∨ fmGet fm "deal_name" = some "")
    (h2 : fmGet fm "name" = none ∨ fmGet fm "name" = some "") :
    ((create_deal_preview fm orig).dealData).map DealData.deal_name =
      some (pyStrip ("Deal with " ++ fmGetD fm "first_name" "" ++ " " ++
        fmGetD fm "last_name" "" ++ " from " ++ fmGetD fm "company" "")) := by
  rcases h1 with h1 | h1 <;> rcases h2 with h2 | h2 <;>
    simp [create_deal_preview, pyOrS, h1, h2, PreviewItem.dealData, fmGetD]

/-- C9 witness: the synthesized deal name at a concrete field map with no
deal-name entity. -/
theorem claim9_witness :
    ((create_deal_preview [("first_name", "Ann"), ("company", "Acme")] "t").dealData).map
        DealData.deal_name =
      some (pyStrip ("Deal with " ++ fmGetD [("first_name", "Ann"), ("company", "Acme")] "first_name" "" ++ " " ++
        fmGetD [("first_name", "Ann"), ("company", "Acme")] "last_name" "" ++ " from " ++
        fmGetD [("first_name", "Ann"), ("company", "Acme")] "company" "")) :=
  claim9_amended [("first_name", "Ann"), ("company", "Acme")] "t" (Or.inl (by decide))
    (Or.inl (by decide))

/-! ## Scenario lemmas: the run of the graph under fixed collaborator
outcomes -/

theorem run_extract_error (b : Behavior) (input m : String)
    (h : b.extract = Except.error m) :
    runWorkflow b (initState input) =
      ({ initState input with error := some ("Error parsing input: " ++ m),
                              workflow_completed := true },
       [Call.notifyError (some ("Error parsing input: " ++ m)) ("User input: " ++ input)]) := by
  simp [runWorkflow, parseInputNode, h, routeWorkflow, handleErrorNode, initState]

theorem run_reject (b : Behavior) (input : String) (i : String) (fm : FieldMap)
    (h1 : b.extract = Except.ok (i, fm))
    (hi : i = "create_contact" ∨ i = "create_deal")
    (h2 : b.confirm.outcome = ConfirmOutcome.reject) :
    (runWorkflow b (initState input)).1.user_confirmed = some false ∧
    (runWorkflow b (initState input)).1.error = some "User cancelled the operation" ∧
    (runWorkflow b (initState input)).2 =
      [Call.notifyError (some "User cancelled the operation") ("User input: " ++ input)] := by
  rcases hi with hi | hi <;> subst hi <;>
    simp [runWorkflow, parseInputNode, h1, routeWorkflow, createPreviewNode,
          showPreviewNode, h2, routeAfterPreview, handleErrorNode, initState]

theorem run_show_fail (b : Behavior) (input : String) (i : String) (fm : FieldMap) (m : String)
    (h1 : b.extract = Except.ok (i, fm))
    (hi : i = "create_contact" ∨ i = "create_deal")
    (h2 : b.confirm.outcome = ConfirmOutcome.fail m) :
    (runWorkflow b (initState input)).1.error = some ("Error showing preview: " ++ m) ∧
    (runWorkflow b (initState input)).2 =
      [Call.notifyError (some ("Error showing preview: " ++ m)) ("User input: " ++ input)] := by
  rcases hi with hi | hi <;> subst hi <;>
    simp [runWorkflow, parseInputNode, h1, routeWorkflow, createPreviewNode,
          showPreviewNode, h2, routeAfterPreview, handleErrorNode, initState]

theorem run_cc_exec_error (b : Behavior) (input : String) (fm : FieldMap) (c : Contact) (m : String)
    (h1 : b.extract = Except.ok ("create_contact", fm))
    (h2 : b.confirm.outcome = ConfirmOutcome.approve)
    (h3 : create_contact_from_preview (applyEdits (create_contact_preview fm input) b.confirm.edits) = some c)
    (h4 : b.contactExec c = Except.error m) :
    (runWorkflow b (initState input)).1.error = some ("Error creating contact: " ++ m) ∧
    (runWorkflow b (initState input)).2 =
      [Call.execContact c, Call.notifyContact (fmGet fm "email") (contactNotifyName fm)] := by
  simp [runWorkflow, parseInputNode, h1, routeWorkflow, createPreviewNode,
        showPreviewNode, h2, routeAfterPreview, createContactNode, h3, h4,
        sendNotificationNode, initState]

theorem run_cc_exec_ok (b : Behavior) (input : String) (fm : FieldMap) (c : Contact) (p : String)
    (h1 : b.extract = Except.ok ("create_contact", fm))
    (h2 : b.confirm.outcome = ConfirmOutcome.approve)
    (h3 : create_contact_from_preview (applyEdits (create_contact_preview fm input) b.confirm.edits) = some c)
    (h4 : b.contactExec c = Except.ok p) :
    (runWorkflow b (initState input)).1.error = none ∧
    (runWorkflow b (initState input)).1.intent = some "create_contact" ∧
    (runWorkflow b (initState input)).1.hubspot_result = some p ∧
    (runWorkflow b (initState input)).1.entities = fm ∧
    (runWorkflow b (initState input)).1.email_result =
      some (match b.notifyContact (fmGet fm "email") (contactNotifyName fm) with
            | Except.ok v => v
            | Except.error _ => false) ∧
    (runWorkflow b (initState input)).2 =
      [Call.execContact c, Call.notifyContact (fmGet fm "email") (contactNotifyName fm)] := by
  simp [runWorkflow, parseInputNode, h1, routeWorkflow, createPreviewNode,
        showPreviewNode, h2, routeAfterPreview, createContactNode, h3, h4,
        sendNotificationNode, initState]

theorem run_cd_exec_error (b : Behavior) (input : String) (fm : FieldMap) (d : Deal) (m : String)
    (h1 : b.extract = Except.ok ("create_deal", fm))
    (h2 : b.confirm.outcome = ConfirmOutcome.approve)
    (h3 : create_deal_from_preview (applyEdits (create_deal_preview fm input) b.confirm.edits) = some d)
    (h4 : b.dealExec d = Except.error m) :
    (runWorkflow b (initState input)).1.error = some ("Error creating deal: " ++ m) ∧
    (runWorkflow b (initState input)).2 =
      [Call.execDeal d,
       Call.notifyDeal (dealNotifyName fm) (dealNotifyAmount fm) (fmGet fm "contact_email")] := by
  simp [runWorkflow, parseInputNode, h1, routeWorkflow, createPreviewNode,
        showPreviewNode, h2, routeAfterPreview, createDealNode, h3, h4,
        sendNotificationNode, initState]

theorem run_cd_exec_ok (b : Behavior) (input : String) (fm : FieldMap) (d : Deal) (p : String)
    (h1 : b.extract = Except.ok ("create_deal", fm))
    (h2 : b.confirm.outcome = ConfirmOutcome.approve)
    (h3 : create_deal_from_preview (applyEdits (create_deal_preview fm input) b.confirm.edits) = some d)
    (h4 : b.dealExec d = Except.ok p) :
    (runWorkflow b (initState input)).1.error = none ∧
    (runWorkflow b (initState input)).1.intent = some "create_deal" ∧
    (runWorkflow b (initState input)).1.hubspot_result = some p ∧
    (runWorkflow b (initState input)).1.entities = fm ∧
    (runWorkflow b (initState input)).2 =
      [Call.execDeal d,
       Call.notifyDeal (dealNotifyName fm) (dealNotifyAmount fm) (fmGet fm "contact_email")] := by
  simp [runWorkflow, parseInputNode, h1, routeWorkflow, createPreviewNode,
        showPreviewNode, h2, routeAfterPreview, createDealNode, h3, h4,
        sendNotificationNode, initState]

/-! ## Claims about the workflow controller -/

/-- C1: for every collaborator behavior and every input, a run of
`process(text)` makes exactly one notification call across the Notifier
boundary, whichever terminal path is taken (approve with successful or
failed dispatch, reject, edit loops, extraction failure, unknown intent,
exceptions in any collaborator) — never zero, never two. -/
theorem claim1_exactly_one_notification (b : Behavior) (input : String) :
    (((process_request b input).2).filter Call.isNotify).length = 1 := by
  have hp : (process_request b input).2 = (runWorkflow b (initState input)).2 := rfl
  rw [hp]
  simp only [runWorkflow]
  by_cases h1 : routeWorkflow (parseInputNode b (initState input)) = "create_preview"
  · rw [if_pos h1]
    by_cases h2 : routeAfterPreview
        (showPreviewNode b (createPreviewNode (parseInputNode b (initState input)))) = "create_contact"
    · rw [if_pos h2]
      have hint : (createContactNode b
          (showPreviewNode b (createPreviewNode (parseInputNode b (initState input))))).1.intent
            = some "create_contact" :=
        (createContact_keeps b _).1.trans (routeAfter_cc _ h2).2
      rw [List.filter_append, List.length_append, createContact_trace_no_notify,
          sendNotification_trace_cc b _ hint]
      simp [Call.isNotify]
    · rw [if_neg h2]
      by_cases h3 : routeAfterPreview
          (showPreviewNode b (createPreviewNode (parseInputNode b (initState input)))) = "create_deal"
      · rw [if_pos h3]
        have hint : (createDealNode b
            (showPreviewNode b (createPreviewNode (parseInputNode b (initState input))))).1.intent
              = some "create_deal" :=
          (createDeal_keeps b _).1.trans (routeAfter_cd _ h3).2
        rw [List.filter_append, List.length_append, createDeal_trace_no_notify,
            sendNotification_trace_cd b _ hint]
        simp [Call.isNotify]
      · rw [if_neg h3, handleError_trace]
        simp [Call.isNotify]
  · rw [if_neg h1, handleError_trace]
    simp [Call.isNotify]

/-- A run in which the extractor classifies a contact request, the user
approves the preview unedited, and the contact executor raises. -/
def c2Behavior : Behavior :=
  { extract := Except.ok ("create_contact", [("email", "bob@x.com"), ("first_name", "Bob")])
    confirm := ⟨[], ConfirmOutcome.approve⟩
    contactExec := fun _ => Except.error "network down"
    dealExec := fun _ => Except.ok "deal123"
    notifyContact := fun _ _ => Except.ok true
    notifyDeal := fun _ _ _ => Except.ok true }

/-- The contact object dispatched in the `c2Behavior` run. -/
def c2Contact : Contact :=
  { email := "bob@x.com", first_name := some "Bob", last_name := some ""
    phone := some "", company := some "", properties := none }

/-- C2 counterexample: when the user approves and the executor raises, the
workflow does not transition to HandleError — the run's single
notification is the success-kind contact-created call, not an error
notification (though the returned result does report the failure). -/
theorem claim2_counterexample :
    (process_request c2Behavior "add bob").2 =
      [Call.execContact c2Contact, Call.notifyContact (some "bob@x.com") "Bob"] ∧
    (((process_request c2Behavior "add bob").2).filter Call.isNotify).all
      (fun nc => !nc.isErrorNotify) = true ∧
    (process_request c2Behavior "add bob").1.success = false :=
  ⟨rfl, rfl, rfl⟩

/-- C2 (amended): when the user approves the preview and the invoked
executor raises, the workflow proceeds from the dispatch node to
SendNotification (not HandleError): the run's single notification is the
success-kind one built from the extracted entities, while the returned
`WorkflowResult` has `success = false` with the dispatch error in its
error field. -/
theorem claim2_amended (b : Behavior) (input m : String) (fm : FieldMap) :
    (∀ c : Contact,
      b.extract = Except.ok ("create_contact", fm) →
      b.confirm.outcome = ConfirmOutcome.approve →
      create_contact_from_preview (applyEdits (create_contact_preview fm input) b.confirm.edits) = some c →
      b.contactExec c = Except.error m →
      (process_request b input).1.success = false ∧
      (process_request b input).1.error = some ("Error creating contact: " ++ m) ∧
      ((process_request b input).2).filter Call.isNotify =
        [Call.notifyContact (fmGet fm "email") (contactNotifyName fm)]) ∧
    (∀ d : Deal,
      b.extract = Except.ok ("create_deal", fm) →
      b.confirm.outcome = ConfirmOutcome.approve →
      create_deal_from_preview (applyEdits (create_deal_preview fm input) b.confirm.edits) = some d →
      b.dealExec d = Except.error m →
      (process_request b input).1.success = false ∧
      (process_request b input).1.error = some ("Error creating deal: " ++ m) ∧
      ((process_request b input).2).filter Call.isNotify =
        [Call.notifyDeal (dealNotifyName fm) (dealNotifyAmount fm) (fmGet fm "contact_email")]) := by
  constructor
  · intro c h1 h2 h3 h4
    obtain ⟨he, htr⟩ := run_cc_exec_error b input fm c m h1 h2 h3 h4
    refine ⟨?_, ?_, ?_⟩
    · show (mkResult (runWorkflow b (initState input)).1).success = false
      rw [mkResult_error _ _ he (str_append_ne_empty _ _ (by decide))]
    · show (mkResult (runWorkflow b (initState input)).1).error = _
      rw [mkResult_error _ _ he (str_append_ne_empty _ _ (by decide))]
    · show ((runWorkflow b (initState input)).2).filter Call.isNotify = _
      rw [htr]
      simp [Call.isNotify]
  · intro d h1 h2 h3 h4
    obtain ⟨he, htr⟩ := run_cd_exec_error b input fm d m h1 h2 h3 h4
    refine ⟨?_, ?_, ?_⟩
    · show (mkResult (runWorkflow b (initState input)).1).success = false
      rw [mkResult_error _ _ he (str_append_ne_empty _ _ (by decide))]
    · show (mkResult (runWorkflow b (initState input)).1).error = _
      rw [mkResult_error _ _ he (str_append_ne_empty _ _ (by decide))]
    · show ((runWorkflow b (initState input)).2).filter Call.isNotify = _
      rw [htr]
      simp [Call.isNotify]

/-- A run in which an approved deal dispatch raises. -/
def c2wBehavior : Behavior :=
  { extract := Except.ok ("create_deal", [("deal_name", "D")])
    confirm := ⟨[], ConfirmOutcome.approve⟩
    contactExec := fun _ => Except.ok "contact123"
    dealExec := fun _ => Except.error "boom"
    notifyContact := fun _ _ => Except.ok true
    notifyDeal := fun _ _ _ => Except.ok true }

/-- The deal object dispatched in the `c2wBehavior` run. -/
def c2wDeal : Deal :=
  { deal_name := "D", amount := none, stage := some "appointmentscheduled"
    close_date := some "", contact_email := some "", properties := none }

/-- C2 witness: the amended statement at a concrete failing deal dispatch. -/
theorem claim2_witness :
    (process_request c2wBehavior "make deal").1.success = false ∧
    (process_request c2wBehavior "make deal").1.error = some ("Error creating deal: " ++ "boom") ∧
    ((process_request c2wBehavior "make deal").2).filter Call.isNotify =
      [Call.notifyDeal (dealNotifyName [("deal_name", "D")])
        (dealNotifyAmount [("deal_name", "D")]) (fmGet [("deal_name", "D")] "contact_email")] :=
  (claim2_amended c2wBehavior "make deal" "boom" [("deal_name", "D")]).2 c2wDeal rfl rfl rfl rfl

/-- A run whose extraction succeeds with the intent `"unknown"` (and no
exception, so no error string is recorded in the state). -/
def c3Behavior : Behavior :=
  { extract := Except.ok ("unknown", [])
    confirm := ⟨[], ConfirmOutcome.approve⟩
    contactExec := fun _ => Except.ok "contact123"
    dealExec := fun _ => Except.ok "deal123"
    notifyContact := fun _ _ => Except.ok true
    notifyDeal := fun _ _ _ => Except.ok true }

/-- C3: on an input classified as `unknown`, no preview is ever built and
`handle_error` is reached directly (it sends the run's one — error —
notification with a `None` message); but because no error string was
recorded, `process_request` returns `success = true` with the message
`"Workflow completed successfully"`, contradicting the claimed
`success == false`. -/
theorem claim3_unknown_intent_reports_success :
    (runWorkflow c3Behavior (initState "what is the weather")).1.preview_item = none ∧
    (process_request c3Behavior "what is the weather").2 =
      [Call.notifyError none "User input: what is the weather"] ∧
    (process_request c3Behavior "what is the weather").1.success = true ∧
    (process_request c3Behavior "what is the weather").1.message =
      "Workflow completed successfully" :=
  ⟨rfl, rfl, rfl, rfl⟩

/-- A run whose extracted contact entities lack an email, approved
unedited, with a succeeding executor. -/
def c4Behavior : Behavior :=
  { extract := Except.ok ("create_contact", [("first_name", "John"), ("last_name", "Doe")])
    confirm := ⟨[], ConfirmOutcome.approve⟩
    contactExec := fun _ => Except.ok "contact123"
    dealExec := fun _ => Except.ok "deal123"
    notifyContact := fun _ _ => Except.ok true
    notifyDeal := fun _ _ _ => Except.ok true }

/-- The blank-email contact object the `c4Behavior` run dispatches. -/
def c4Contact : Contact :=
  { email := "", first_name := some "John", last_name := some "Doe"
    phone := some "", company := some "", properties := none }

/-- C4: dispatching an approved contact preview whose email is blank does
not fail with any validation error — the executor is invoked with the
blank-email contact and the run completes successfully, contradicting the
claimed `ValidationError("email is required")` barrier (which the repo's
own test `test_create_contact_missing_email` asserts). -/
theorem claim4_blank_email_reaches_executor :
    c4Contact.email = "" ∧
    (process_request c4Behavior "add john").2 =
      [Call.execContact c4Contact, Call.notifyContact none "John Doe"] ∧
    (process_request c4Behavior "add john").1.success = true ∧
    (process_request c4Behavior "add john").1.error = none :=
  ⟨rfl, rfl, rfl, rfl⟩

/-- C5: for every run in which the extractor yields a known intent and the
user rejects at the confirmation step, the run records
`confirmed = false` and the error `"User cancelled the operation"`, makes
no executor call, emits exactly one notification — the error-kind one —
and the returned `WorkflowResult` has `success = false`. -/
theorem claim5_reject_cancels (b : Behavior) (input : String) (i : String) (fm : FieldMap)
    (h1 : b.extract = Except.ok (i, fm))
    (hi : i = "create_contact" ∨ i = "create_deal")
    (h2 : b.confirm.outcome = ConfirmOutcome.reject) :
    (runWorkflow b (initState input)).1.user_confirmed = some false ∧
    (process_request b input).1.success = false ∧
    (process_request b input).1.error = some "User cancelled the operation" ∧
    (process_request b input).2 =
      [Call.notifyError (some "User cancelled the operation") ("User input: " ++ input)] ∧
    ((process_request b input).2).filter Call.isExec = [] := by
  obtain ⟨hc, he, htr⟩ := run_reject b input i fm h1 hi h2
  refine ⟨hc, ?_, ?_, ?_, ?_⟩
  · show (mkResult (runWorkflow b (initState input)).1).success = false
    rw [mkResult_error _ _ he (by decide)]
  · show (mkResult (runWorkflow b (initState input)).1).error = _
    rw [mkResult_error _ _ he (by decide)]
  · exact htr
  · show ((runWorkflow b (initState input)).2).filter Call.isExec = []
    rw [htr]
    simp [Call.isExec]

/-- A run in which the user rejects a contact preview. -/
def c5Behavior : Behavior :=
  { extract := Except.ok ("create_contact", [("email", "a@x.com")])
    confirm := ⟨[], ConfirmOutcome.reject⟩
    contactExec := fun _ => Except.ok "contact123"
    dealExec := fun _ => Except.ok "deal123"
    notifyContact := fun _ _ => Except.ok true
    notifyDeal := fun _ _ _ => Except.ok true }

/-- C5 witness: the rejection path at a concrete behavior. -/
theorem claim5_witness :
    (runWorkflow c5Behavior (initState "add a")).1.user_confirmed = some false ∧
    (process_request c5Behavior "add a").1.success = false ∧
    (process_request c5Behavior "add a").1.error = some "User cancelled the operation" ∧
    (process_request c5Behavior "add a").2 =
      [Call.notifyError (some "User cancelled the operation") ("User input: " ++ "add a")] ∧
    ((process_request c5Behavior "add a").2).filter Call.isExec = [] :=
  claim5_reject_cancels c5Behavior "add a" "create_contact" [("email", "a@x.com")]
    rfl (Or.inl rfl) rfl

/-- A run in which everything succeeds except the notifier, which raises. -/
def c10Behavior : Behavior :=
  { extract := Except.ok ("create_contact", [("email", "bob@x.com")])
    confirm := ⟨[], ConfirmOutcome.approve⟩
    contactExec := fun _ => Except.ok "contact123"
    dealExec := fun _ => Except.ok "deal123"
    notifyContact := fun _ _ => Except.error "smtp down"
    notifyDeal := fun _ _ _ => Except.ok true }

/-- C10 counterexample: an exception raised by the notifier during the run
is caught but is not surfaced — the run returns `success = true` with an
empty error field (the failure is recorded only as `email_result = false`),
refuting that every internal exception yields `success == false` with its
message in the error field. -/
theorem claim10_counterexample :
    (process_request c10Behavior "add bob").2 =
      [Call.execContact
        { email := "bob@x.com", first_name := some "", last_name := some ""
          phone := some "", company := some "", properties := none },
       Call.notifyContact (some "bob@x.com") ""] ∧
    (process_request c10Behavior "add bob").1.success = true ∧
    (process_request c10Behavior "add bob").1.error = none ∧
    (runWorkflow c10Behavior (initState "add bob")).1.email_result = some false :=
  ⟨rfl, rfl, rfl, rfl⟩

/-- C10 (amended): `process(text)` is total (every node catches its own
exceptions), and an exception from the extractor, from the confirmation
loop, or from an invoked executor is surfaced as `success = false` with
the exception's message inside the error field; an exception from the
notifier on the success path, however, is swallowed: the run still
returns `success = true` and only `email_result` records the failure. -/
theorem claim10_amended (b : Behavior) (input m : String) :
    (b.extract = Except.error m →
      (process_request b input).1.success = false ∧
      (process_request b input).1.error = some ("Error parsing input: " ++ m)) ∧
    (∀ i fm, b.extract = Except.ok (i, fm) →
      (i = "create_contact" ∨ i = "create_deal") →
      b.confirm.outcome = ConfirmOutcome.fail m →
      (process_request b input).1.success = false ∧
      (process_request b input).1.error = some ("Error showing preview: " ++ m)) ∧
    (∀ fm (c : Contact), b.extract = Except.ok ("create_contact", fm) →
      b.confirm.outcome = ConfirmOutcome.approve →
      create_contact_from_preview (applyEdits (create_contact_preview fm input) b.confirm.edits) = some c →
      b.contactExec c = Except.error m →
      (process_request b input).1.success = false ∧
      (process_request b input).1.error = some ("Error creating contact: " ++ m)) ∧
    (∀ fm (d : Deal), b.extract = Except.ok ("create_deal", fm) →
      b.confirm.outcome = ConfirmOutcome.approve →
      create_deal_from_preview (applyEdits (create_deal_preview fm input) b.confirm.edits) = some d →
      b.dealExec d = Except.error m →
      (process_request b input).1.success = false ∧
      (process_request b input).1.error = some ("Error creating deal: " ++ m)) ∧
    (∀ fm (c : Contact) p, b.extract = Except.ok ("create_contact", fm) →
      b.confirm.outcome = ConfirmOutcome.approve →
      create_contact_from_preview (applyEdits (create_contact_preview fm input) b.confirm.edits) = some c →
      b.contactExec c = Except.ok p →
      b.notifyContact (fmGet fm "email") (contactNotifyName fm) = Except.error m →
      (process_request b input).1.success = true ∧
      (process_request b input).1.error = none ∧
      (runWorkflow b (initState input)).1.email_result = some false) := by
  refine ⟨?_, ?_, ?_, ?_, ?_⟩
  · intro h
    have hr := run_extract_error b input m h
    constructor
    · show (mkResult (runWorkflow b (initState input)).1).success = false
      rw [hr, mkResult_error _ _ rfl (str_append_ne_empty _ _ (by decide))]
    · show (mkResult (runWorkflow b (initState input)).1).error = _
      rw [hr, mkResult_error _ _ rfl (str_append_ne_empty _ _ (by decide))]
  · intro i fm h1 hi h2
    obtain ⟨he, -⟩ := run_show_fail b input i fm m h1 hi h2
    constructor
    · show (mkResult (runWorkflow b (initState input)).1).success = false
      rw [mkResult_error _ _ he (str_append_ne_empty _ _ (by decide))]
    · show (mkResult (runWorkflow b (initState input)).1).error = _
      rw [mkResult_error _ _ he (str_append_ne_empty _ _ (by decide))]
  · intro fm c h1 h2 h3 h4
    obtain ⟨he, -⟩ := run_cc_exec_error b input fm c m h1 h2 h3 h4
    constructor
    · show (mkResult (runWorkflow b (initState input)).1).success = false
      rw [mkResult_error _ _ he (str_append_ne_empty _ _ (by decide))]
    · show (mkResult (runWorkflow b (initState input)).1).error = _
      rw [mkResult_error _ _ he (str_append_ne_empty _ _ (by decide))]
  · intro fm d h1 h2 h3 h4
    obtain ⟨he, -⟩ := run_cd_exec_error b input fm d m h1 h2 h3 h4
    constructor
    · show (mkResult (runWorkflow b (initState input)).1).success = false
      rw [mkResult_error _ _ he (str_append_ne_empty _ _ (by decide))]
    · show (mkResult (runWorkflow b (initState input)).1).error = _
      rw [mkResult_error _ _ he (str_append_ne_empty _ _ (by decide))]
  · intro fm c p h1 h2 h3 h4 h5
    obtain ⟨he, -, -, -, hm, -⟩ := run_cc_exec_ok b input fm c p h1 h2 h3 h4
    rw [h5] at hm
    refine ⟨?_, ?_, hm⟩
    · show (mkResult (runWorkflow b (initState input)).1).success = true
      rw [mkResult_noError _ he]
    · show (mkResult (runWorkflow b (initState input)).1).error = none
      rw [mkResult_noError _ he]

/-- A run whose extraction raises. -/
def c10wBehavior : Behavior :=
  { extract := Except.error "LLM down"
    confirm := ⟨[], ConfirmOutcome.approve⟩
    contactExec := fun _ => Except.ok "contact123"
    dealExec := fun _ => Except.ok "deal123"
    notifyContact := fun _ _ => Except.ok true
    notifyDeal := fun _ _ _ => Except.ok true }

/-- C10 witness: the amended statement's extraction-failure conjunct at a
concrete behavior. -/
theorem claim10_witness :
    (process_request c10wBehavior "hi").1.success = false ∧
    (process_request c10wBehavior "hi").1.error = some ("Error parsing input: " ++ "LLM down") :=
  (claim10_amended c10wBehavior "hi" "LLM down").1 rfl

end Workflow
